import Mathlib

/-
Shallow embedding of src/extension/textext/utility.py (TexText utility module).

Effectful code (filesystem access, process spawning, the process-global working
directory) is modelled by explicit state passing: an external outcome such as the
result of spawning a process is an explicit argument, and the state mutated by a
helper is an explicit record.  Bytes are modelled as lists of naturals.
-/

namespace TexTextUtility

/-- Modelled from the spec: the extension-defined error kinds from the repository's
errors module (imported as `from errors import *` in utility.py but not itself part
of the analyzed sources).  Per the spec there are two command error kinds, "command
not found" (the executable could not be launched) and "command failed" (non-zero
exit, carrying exit code and captured output), plus the fatal configuration error
(`TexTextFatalError`) raised with a user-facing message; the constructor arguments
mirror the keyword arguments used at the raise sites in utility.py. -/
inductive TexTextError where
  | fatal (msg : String)
  | commandNotFound (msg : String)
  | commandFailed (message : String) (return_code : Int) (stdout stderr : List Nat)
  deriving Repr, DecidableEq

/-- The outcome of the `subprocess.Popen` / `p.communicate()` block in
`exec_command`: either launching (or communicating with) the process raised an
`OSError` with some message, or the process completed with a return code and
captured stdout/stderr bytes. -/
inductive SpawnOutcome where
  | osError (msg : String)
  | completed (returncode : Int) (stdout stderr : List Nat)
  deriving Repr, DecidableEq

/-- Embedding of `exec_command(cmd, ok_return_value=0)` (utility.py lines 241-272).
The spawn outcome is passed explicitly.  An `OSError` is wrapped into
`TexTextCommandNotFound`; a completed process whose return code differs from a
non-`None` `ok_return_value` raises `TexTextCommandFailed` carrying the return
code and the captured stdout and stderr; otherwise the function returns the
concatenation of stdout and stderr. -/
def exec_command (outcome : SpawnOutcome) (cmd : List String)
    (ok_return_value : Option Int := some 0) : Except TexTextError (List Nat) :=
  match outcome with
  | SpawnOutcome.osError msg =>
      Except.error (TexTextError.commandNotFound
        ("Command " ++ String.intercalate " " cmd ++ " failed: " ++ msg))
  | SpawnOutcome.completed rc out err =>
      match ok_return_value with
      | some ok =>
          if rc ≠ ok then
            Except.error (TexTextError.commandFailed
              ("Command " ++ String.intercalate " " cmd ++ " failed (code " ++
                toString rc ++ ")") rc out err)
          else
            Except.ok (out ++ err)
      | none => Except.ok (out ++ err)

/-- JSON-representable values, as produced/consumed by `json.load`/`json.dump`.
Python `None` is `jNull`; numbers are modelled as integers. -/
inductive JValue where
  | jNull
  | jBool (b : Bool)
  | jNum (n : Int)
  | jStr (s : String)
  | jArr (elems : List JValue)
  | jObj (fields : List (String × JValue))

/-- Python `dict` lookup (`d.get(key)` without default) on an association list
holding the object fields. -/
def dictGet : List (String × JValue) → String → Option JValue
  | [], _ => none
  | (k, v) :: rest, key => if k = key then some v else dictGet rest key

/-- Python `dict` assignment `d[key] = value`: replace the value when the key is
present, append a new binding otherwise. -/
def dictSet : List (String × JValue) → String → JValue → List (String × JValue)
  | [], key, value => [(key, value)]
  | (k, v) :: rest, key, value =>
      if k = key then (key, value) :: rest else (k, v) :: dictSet rest key value

/-- The state of the JSON file at a Settings instance's `config_path`: the file may
be absent, present but not valid JSON (so that `json.load` raises a `ValueError`
with some message), or present and holding a JSON value.  `json.dump` followed by
`json.load` is the identity on JSON-representable data, so a parseable file is
modelled by the value it holds. -/
inductive FileContent where
  | absent
  | invalid (msg : String)
  | json (v : JValue)

/-- In-memory state of a `Settings` (or `Cache`) instance: the `values` attribute.
`self.values = json.load(f)` can assign any JSON value, so the field is a
`JValue`; it is `jObj []` (an empty dict) until a file is loaded. -/
structure SettingsState where
  values : JValue

/-- Embedding of `Settings.load` (utility.py lines 189-192): when no file exists
the in-memory values are left unchanged; when the file exists, `json.load` either
raises a `ValueError` (invalid file) or replaces `values` wholesale. -/
def Settings.load (file : FileContent) (values : JValue) : Except String JValue :=
  match file with
  | FileContent.absent => Except.ok values
  | FileContent.invalid msg => Except.error msg
  | FileContent.json v => Except.ok v

/-- Embedding of `Settings.__init__` (utility.py lines 180-187): `values` starts
as an empty dict, then `load` runs; a `ValueError` from `load` is wrapped into
`TexTextFatalError` with the user-facing message built from the config path. -/
def Settings.init (config_path : String) (file : FileContent) :
    Except TexTextError SettingsState :=
  match Settings.load file (JValue.jObj []) with
  | Except.ok v => Except.ok ⟨v⟩
  | Except.error e =>
      Except.error (TexTextError.fatal
        ("Bad config `" ++ config_path ++ "`: " ++ e ++
          ". Please fix it and re-run TexText."))

/-- Embedding of `Settings.save` (utility.py lines 194-196): the in-memory values
are dumped wholesale to the config file. -/
def Settings.save (s : SettingsState) : FileContent :=
  FileContent.json s.values

/-- Embedding of `Settings.get(key, default=None)` (utility.py lines 198-202) for
an instance whose `values` is a dict with the given fields:
`result = self.values.get(key, default)`, then `default` is returned whenever
`result is None`. -/
def Settings.get (fields : List (String × JValue)) (key : String)
    (default : JValue := JValue.jNull) : JValue :=
  match (dictGet fields key).getD default with
  | JValue.jNull => default
  | r => r

/-- Embedding of `Settings.__getitem__` (utility.py lines 204-205) for an instance
whose `values` is a dict with the given fields: `self.values.get(key)`. -/
def Settings.getItem (fields : List (String × JValue)) (key : String) :
    Option JValue :=
  dictGet fields key

/-- Embedding of `Settings.__setitem__` (utility.py lines 207-208) for an instance
whose `values` is a dict with the given fields: `self.values[key] = value`. -/
def Settings.setItem (fields : List (String × JValue)) (key : String)
    (value : JValue) : List (String × JValue) :=
  dictSet fields key value

/-- Embedding of `Cache.__init__` (utility.py lines 211-216): run
`Settings.__init__` and suppress a `TexTextFatalError`.  When the error is
suppressed the instance keeps the attributes set before the failure point, i.e.
the empty dict assigned to `self.values` before `load` raised. -/
def Cache.init (config_path : String) (file : FileContent) :
    Except TexTextError SettingsState :=
  match Settings.init config_path file with
  | Except.error (TexTextError.fatal _) => Except.ok ⟨JValue.jObj []⟩
  | r => r

/-- Python slice `l[-k:]` for a non-negative `k`: the last `k` elements when
`0 < k` (all of `l` when `k ≥ len(l)`), but the whole list when `k = 0`, since
`l[-0:]` is `l[0:]`. -/
def pySliceLast (l : List α) (k : Nat) : List α :=
  if k = 0 then l else l.drop (l.length - k)

/-- State of a `CycleBufferHandler` (utility.py lines 158-166): the configured
capacity and the buffered log records (record contents are irrelevant here, so
the record type is a parameter). -/
structure CycleBufferHandler (α : Type) where
  capacity : Nat
  buffer : List α

/-- Embedding of `CycleBufferHandler.emit` (utility.py lines 163-166): append the
record, and when the buffer length exceeds the capacity keep
`self.buffer[-self.capacity:]`. -/
def CycleBufferHandler.emit (h : CycleBufferHandler α) (record : α) :
    CycleBufferHandler α :=
  let buf := h.buffer ++ [record]
  if buf.length > h.capacity then
    { h with buffer := pySliceLast buf h.capacity }
  else
    { h with buffer := buf }

/-- Emit a sequence of records in order. -/
def CycleBufferHandler.emitAll (h : CycleBufferHandler α) (records : List α) :
    CycleBufferHandler α :=
  records.foldl CycleBufferHandler.emit h

/-- Whether a scoped block finished normally or raised an exception (carrying
some description of it). -/
inductive BlockOutcome where
  | normal
  | raised (msg : String)
  deriving Repr, DecidableEq

/-- The process-global state touched by the directory-scoping helpers: the
current working directory (an absolute path, so `os.path.abspath(os.path.curdir)`
is `cwd` itself) and the set of existing directories. -/
structure FsState where
  cwd : String
  dirs : List String

/-- Embedding of a `with ChangeDirectory(dir): body` block (utility.py lines
15-24).  `__init__` records `old_dir = os.path.abspath(os.path.curdir)`;
`__enter__` runs `os.chdir(self.new_dir)`; the body runs (possibly changing the
state further and possibly raising); `__exit__` runs `os.chdir(self.old_dir)`.
Per Python with-statement semantics `__exit__` runs both when the body completes
normally and when it raises, and the exception (if any) propagates. -/
def ChangeDirectory.run (dir : String) (body : FsState → FsState × BlockOutcome)
    (s : FsState) : FsState × BlockOutcome :=
  let old_dir := s.cwd
  let r := body { s with cwd := dir }
  ({ r.1 with cwd := old_dir }, r.2)

/-- Embedding of a `with TemporaryDirectory() as temp_dir: body` block (utility.py
lines 27-43): `__enter__` creates a fresh directory via `tempfile.mkdtemp` (its
name is passed in explicitly) and hands its name to the body; `__exit__` removes
it via `shutil.rmtree`, again both on normal completion and on an exception. -/
def TemporaryDirectory.run (tempName : String)
    (body : String → FsState → FsState × BlockOutcome) (s : FsState) :
    FsState × BlockOutcome :=
  let r := body tempName { s with dirs := tempName :: s.dirs }
  ({ r.1 with dirs := r.1.dirs.erase tempName }, r.2)

/-- Embedding of `ChangeToTemporaryDirectory` (utility.py lines 46-50): a
`TemporaryDirectory` block wrapping a `ChangeDirectory` block around the yielded
body. -/
def ChangeToTemporaryDirectory.run (tempName : String)
    (body : FsState → FsState × BlockOutcome) (s : FsState) :
    FsState × BlockOutcome :=
  TemporaryDirectory.run tempName
    (fun temp_dir st => ChangeDirectory.run temp_dir body st) s

namespace TexTextNestedLoggingGuard

/-- The fixed indentation step `TexTextNestedLoggingGuard._MESSAGE_INDENT`
(utility.py line 97). -/
def MESSAGE_INDENT : Int := 2

/-- The events touching the class-wide counter
`TexTextNestedLoggingGuard._message_current_indent`: entering a nested log scope
(`__enter__`, utility.py lines 109-116) and exiting one (`__exit__`, lines
118-129). -/
inductive GuardEvent where
  | enter
  | exit
  deriving Repr, DecidableEq

/-- Effect of one event on `_message_current_indent`: `__enter__` adds
`_MESSAGE_INDENT`, `__exit__` subtracts it. -/
def guardStep (indent : Int) : GuardEvent → Int
  | GuardEvent.enter => indent + MESSAGE_INDENT
  | GuardEvent.exit => indent - MESSAGE_INDENT

/-- The counter after a sequence of enter/exit events, starting from `indent`. -/
def guardRun (indent : Int) (events : List GuardEvent) : Int :=
  events.foldl guardStep indent

/-- Balanced (properly nested) sequences of enter/exit pairs: the empty sequence,
a balanced sequence wrapped in one enter/exit pair, and the concatenation of two
balanced sequences. -/
inductive Balanced : List GuardEvent → Prop where
  | nil : Balanced []
  | pair {l : List GuardEvent} : Balanced l →
      Balanced (GuardEvent.enter :: l ++ [GuardEvent.exit])
  | append {l₁ l₂ : List GuardEvent} : Balanced l₁ → Balanced l₂ →
      Balanced (l₁ ++ l₂)

end TexTextNestedLoggingGuard

/-! Helper lemmas -/

/-- Setting a key in a dict and reading it back yields the value just set. -/
theorem dictGet_dictSet_same (fields : List (String × JValue)) (key : String)
    (v : JValue) : dictGet (dictSet fields key v) key = some v := by
  induction fields with
  | nil => simp [dictSet, dictGet]
  | cons p rest ih =>
      obtain ⟨k, w⟩ := p
      by_cases h : k = key <;> simp [dictSet, dictGet, h, ih]

/-! Theorems for the claims -/

/-- C2: an `OSError` while launching the process is wrapped into
`TexTextCommandNotFound` (with the message built in `exec_command`) instead of
propagating, for every command and every `ok_return_value`. -/
theorem exec_command_oserror_raises_not_found (cmd : List String)
    (ok : Option Int) (msg : String) :
    exec_command (SpawnOutcome.osError msg) cmd ok =
      Except.error (TexTextError.commandNotFound
        ("Command " ++ String.intercalate " " cmd ++ " failed: " ++ msg)) := rfl

/-- C6: when the process exits with the expected return value, `exec_command`
returns the captured stdout bytes followed by the captured stderr bytes. -/
theorem exec_command_expected_returns_output (cmd : List String) (rc : Int)
    (out err : List Nat) :
    exec_command (SpawnOutcome.completed rc out err) cmd (some rc) =
      Except.ok (out ++ err) := by
  simp [exec_command]

/-- C1, counterexample to the claim as stated: an invocation with
`ok_return_value=None` whose process exits with the non-zero code 1 returns
normally instead of raising `TexTextCommandFailed`. -/
theorem exec_command_nonzero_exit_cex :
    exec_command (SpawnOutcome.completed 1 [3] [4]) ["latex"] none =
      Except.ok [3, 4] := rfl

/-- C1 (amended): whenever `ok_return_value` is not `None` and the process exit
code differs from it — in particular a non-zero exit under the default
`ok_return_value=0` — `exec_command` raises `TexTextCommandFailed` carrying that
exit code and the captured stdout and stderr. -/
theorem exec_command_mismatch_raises_failed (cmd : List String) (rc ok : Int)
    (out err : List Nat) (h : rc ≠ ok) :
    exec_command (SpawnOutcome.completed rc out err) cmd (some ok) =
      Except.error (TexTextError.commandFailed
        ("Command " ++ String.intercalate " " cmd ++ " failed (code " ++
          toString rc ++ ")") rc out err) := by
  simp [exec_command, h]

/-- Witness for C1 at a concrete failing invocation (default expected value 0,
exit code 1). -/
theorem exec_command_mismatch_raises_failed_witness :
    exec_command (SpawnOutcome.completed 1 [3] [4]) ["latex"] (some 0) =
      Except.error (TexTextError.commandFailed
        ("Command " ++ String.intercalate " " ["latex"] ++ " failed (code " ++
          toString (1 : Int) ++ ")") 1 [3] [4]) :=
  exec_command_mismatch_raises_failed ["latex"] 1 0 [3] [4] (by decide)

/-- C3: storing a value under a key in a Settings instance (whose values form a
dict), saving, and constructing a new Settings on the resulting file succeeds and
yields a store from which getting that key (`__getitem__`) returns the same
value. -/
theorem settings_roundtrip (config_path : String)
    (fields : List (String × JValue)) (key : String) (v : JValue) :
    Settings.init config_path
        (Settings.save ⟨JValue.jObj (Settings.setItem fields key v)⟩) =
      Except.ok ⟨JValue.jObj (Settings.setItem fields key v)⟩ ∧
    Settings.getItem (Settings.setItem fields key v) key = some v :=
  ⟨rfl, dictGet_dictSet_same fields key v⟩

/-- C7: whenever `Settings.__init__` raises the fatal configuration error,
`Cache.__init__` on the same file does not raise: it suppresses the error and the
instance proceeds with the empty in-memory map assigned before the failure. -/
theorem cache_suppresses_fatal (config_path : String) (file : FileContent)
    (msg : String)
    (h : Settings.init config_path file = Except.error (TexTextError.fatal msg)) :
    Cache.init config_path file = Except.ok ⟨JValue.jObj []⟩ := by
  simp [Cache.init, h]

/-- Witness for C7 on a concrete unparseable config file. -/
theorem cache_suppresses_fatal_witness :
    Cache.init "config.json" (FileContent.invalid "oops") =
      Except.ok ⟨JValue.jObj []⟩ :=
  cache_suppresses_fatal "config.json" (FileContent.invalid "oops") _ rfl

/-- C9: `Settings.get` returns the default whenever the stored value is `None`
(stored explicitly or absent), and it returns `None` only when the default itself
is `None`. -/
theorem settings_get_default (fields : List (String × JValue)) (key : String)
    (default : JValue) :
    ((dictGet fields key = none ∨ dictGet fields key = some JValue.jNull) →
      Settings.get fields key default = default) ∧
    (Settings.get fields key default = JValue.jNull → default = JValue.jNull) := by
  constructor
  · rintro (h | h) <;> unfold Settings.get <;> rw [h] <;> cases default <;> rfl
  · intro h
    unfold Settings.get at h
    rcases hg : dictGet fields key with _ | w
    · rw [hg] at h
      cases default <;> simp_all
    · rw [hg] at h
      cases w <;> simp_all

/-- Witness for C9: a key stored as `None` yields the supplied default. -/
theorem settings_get_default_witness :
    Settings.get [("a", JValue.jNull)] "a" (JValue.jBool true) =
      JValue.jBool true :=
  (settings_get_default [("a", JValue.jNull)] "a" (JValue.jBool true)).1
    (Or.inr rfl)

/-- C10: constructing a Settings instance on an absent config file succeeds with
an empty in-memory map, and the fatal configuration error is raised exactly when
the file exists but fails to parse as JSON. -/
theorem settings_init_absent (config_path : String) :
    Settings.init config_path FileContent.absent =
      Except.ok ⟨JValue.jObj []⟩ ∧
    ∀ file : FileContent,
      (∃ m, Settings.init config_path file =
        Except.error (TexTextError.fatal m)) ↔
      ∃ msg, file = FileContent.invalid msg := by
  refine ⟨rfl, fun file => ?_⟩
  cases file with
  | absent => simp [Settings.init, Settings.load]
  | invalid msg => simp [Settings.init, Settings.load]
  | json v => simp [Settings.init, Settings.load]

/-- C5: both `ChangeDirectory` and `ChangeToTemporaryDirectory` blocks restore
the working directory recorded at construction on exit, for every body — in
particular both for bodies that complete normally and for bodies that raise. -/
theorem change_directory_restores_cwd (dir tempName : String)
    (body : FsState → FsState × BlockOutcome) (s : FsState) :
    (ChangeDirectory.run dir body s).1.cwd = s.cwd ∧
    (ChangeToTemporaryDirectory.run tempName body s).1.cwd = s.cwd :=
  ⟨rfl, rfl⟩

namespace TexTextNestedLoggingGuard

/-- The counter after a concatenation of event sequences. -/
theorem guardRun_append (indent : Int) (l₁ l₂ : List GuardEvent) :
    guardRun indent (l₁ ++ l₂) = guardRun (guardRun indent l₁) l₂ := by
  simp [guardRun]

/-- C8: entering a nested log scope adds the fixed step `_MESSAGE_INDENT` to the
process-wide indentation counter and exiting subtracts the same step, so every
balanced sequence of enter/exit pairs returns the counter to its value before
the sequence. -/
theorem nested_logging_balanced (indent : Int) (events : List GuardEvent)
    (h : Balanced events) : guardRun indent events = indent := by
  induction h generalizing indent with
  | nil => rfl
  | pair hl ih =>
      rename_i l
      have h1 : guardRun indent (GuardEvent.enter :: l ++ [GuardEvent.exit]) =
          guardRun (indent + MESSAGE_INDENT) (l ++ [GuardEvent.exit]) := rfl
      rw [h1, guardRun_append, ih]
      show indent + MESSAGE_INDENT - MESSAGE_INDENT = indent
      omega
  | append hl₁ hl₂ ih₁ ih₂ =>
      rw [guardRun_append, ih₁, ih₂]

/-- Witness for C8 on a concrete balanced sequence of two nested pairs. -/
theorem nested_logging_balanced_witness :
    Balanced [GuardEvent.enter, GuardEvent.enter, GuardEvent.exit,
      GuardEvent.exit] ∧
    guardRun 5 [GuardEvent.enter, GuardEvent.enter, GuardEvent.exit,
      GuardEvent.exit] = 5 :=
  ⟨Balanced.pair (Balanced.pair Balanced.nil),
    nested_logging_balanced 5 _ (Balanced.pair (Balanced.pair Balanced.nil))⟩

end TexTextNestedLoggingGuard

/-- Truncating the right part of an append to `c` does not change the first `c`
elements of the append. -/
theorem take_append_take {α : Type} (u w : List α) (c : Nat) :
    (u ++ w.take c).take c = (u ++ w).take c := by
  rw [List.take_append_eq_append_take, List.take_append_eq_append_take,
    List.take_take, Nat.min_eq_left (Nat.sub_le c u.length)]

/-- `emit` never changes the capacity field. -/
theorem emit_capacity {α : Type} (h : CycleBufferHandler α) (r : α) :
    (h.emit r).capacity = h.capacity := by
  unfold CycleBufferHandler.emit
  dsimp only
  split <;> rfl

/-- One `emit` step on a buffer within capacity: the reversed buffer becomes the
new record followed by the reversed old buffer, truncated to the capacity. -/
theorem emit_buffer_reverse {α : Type} (c : Nat) (b : List α) (r : α)
    (hc : 1 ≤ c) (hb : b.length ≤ c) :
    (CycleBufferHandler.emit ⟨c, b⟩ r).buffer.reverse =
      (r :: b.reverse).take c := by
  unfold CycleBufferHandler.emit
  dsimp only
  by_cases hlen : (b ++ [r]).length > c
  · rw [if_pos hlen]
    have harith : (b ++ [r]).length - ((b ++ [r]).length - c) = c := by
      simp at hlen ⊢
      omega
    have hrev : (b ++ [r]).reverse = r :: b.reverse := by simp
    rw [pySliceLast, if_neg (by omega), List.reverse_drop, harith, hrev]
  · rw [if_neg hlen]
    have hle : (r :: b.reverse).length ≤ c := by
      simp at hlen ⊢
      omega
    rw [List.take_of_length_le hle]
    simp

/-- One `emit` step keeps the buffer within capacity. -/
theorem emit_buffer_length {α : Type} (c : Nat) (b : List α) (r : α)
    (hc : 1 ≤ c) (hb : b.length ≤ c) :
    (CycleBufferHandler.emit ⟨c, b⟩ r).buffer.length ≤ c := by
  have h := emit_buffer_reverse c b r hc hb
  have h2 : (CycleBufferHandler.emit ⟨c, b⟩ r).buffer.length =
      ((r :: b.reverse).take c).length := by
    rw [← List.length_reverse ((CycleBufferHandler.emit ⟨c, b⟩ r).buffer), h]
  rw [h2, List.length_take]
  exact Nat.min_le_left _ _

/-- Invariant of `emitAll`: starting from any buffer within capacity, the
reversed buffer is the first `c` records of the reversed emission history. -/
theorem emitAll_buffer_reverse {α : Type} (c : Nat) (hc : 1 ≤ c)
    (records : List α) :
    ∀ h : CycleBufferHandler α, h.capacity = c → h.buffer.length ≤ c →
      (h.emitAll records).buffer.reverse =
        (records.reverse ++ h.buffer.reverse).take c := by
  induction records with
  | nil =>
      intro h hcp hb
      simp [CycleBufferHandler.emitAll, List.take_of_length_le, hb]
  | cons r rs ih =>
      intro h hcp hb
      obtain ⟨cap, b⟩ := h
      dsimp only at hcp hb
      subst hcp
      have hfold : (CycleBufferHandler.emitAll ⟨cap, b⟩ (r :: rs)) =
          (CycleBufferHandler.emit ⟨cap, b⟩ r).emitAll rs := rfl
      rw [hfold, ih (CycleBufferHandler.emit ⟨cap, b⟩ r) (emit_capacity ⟨cap, b⟩ r)
        (emit_buffer_length cap b r hc hb),
        emit_buffer_reverse cap b r hc hb, take_append_take]
      simp [List.append_assoc]

/-- C4, counterexample to the claim as stated: at capacity 0, emitting one record
leaves it in the buffer (`buffer[-0:]` is the whole buffer in Python), so the
buffer exceeds the capacity. -/
theorem cycle_buffer_capacity_zero_cex :
    (CycleBufferHandler.emitAll ⟨0, ([] : List Nat)⟩ [7]).buffer = [7] ∧
    ¬ (CycleBufferHandler.emitAll ⟨0, ([] : List Nat)⟩ [7]).buffer.length ≤ 0 := by
  decide

/-- C4 (amended): for every capacity `c ≥ 1` and every sequence of emitted
records, after the emissions the buffer holds exactly the most recently emitted
`min c n` records in emission order, and in particular never more than `c`
records. -/
theorem cycle_buffer_retains_recent {α : Type} (c : Nat) (hc : 1 ≤ c)
    (records : List α) :
    (CycleBufferHandler.emitAll ⟨c, []⟩ records).buffer =
      (records.reverse.take c).reverse ∧
    (CycleBufferHandler.emitAll ⟨c, []⟩ records).buffer.length =
      min c records.length ∧
    (CycleBufferHandler.emitAll ⟨c, []⟩ records).buffer.length ≤ c := by
  have h := emitAll_buffer_reverse c hc records ⟨c, []⟩ rfl (by simp)
  simp only [List.reverse_nil, List.append_nil] at h
  have hlen : (CycleBufferHandler.emitAll ⟨c, ([] : List α)⟩ records).buffer.length
      = min c records.length := by
    have h2 := congrArg List.length h
    rwa [List.length_reverse, List.length_take, List.length_reverse] at h2
  refine ⟨?_, hlen, ?_⟩
  · have h3 := congrArg List.reverse h
    rwa [List.reverse_reverse] at h3
  · rw [hlen]
    exact Nat.min_le_left _ _

/-- Witness for C4: capacity 2, three records emitted, buffer holds the last
two in order. -/
theorem cycle_buffer_retains_recent_witness :
    (CycleBufferHandler.emitAll ⟨2, ([] : List Nat)⟩ [1, 2, 3]).buffer =
      [2, 3] :=
  ((cycle_buffer_retains_recent 2 (by decide) [1, 2, 3]).1).trans rfl

end TexTextUtility
